import Mathlib

/-!
Shallow embedding of the glucose projection engine of `cgmsim-local`
(`src/utils/glucoseSimulator.ts` and `src/types/index.ts`).

Modelling conventions:
* JavaScript `number` is modelled by `ℚ` (all arithmetic in the claims is
  exact decimal/rational arithmetic).
* `Date` values are modelled by their epoch value in milliseconds, as `ℤ`;
  `getMinutes`, `getHours`, `getSeconds` are the UTC field extractors
  (Euclidean division/modulo by the obvious constants).
* The noise seed `Math.sin(time/100) * Math.cos(time/200) * Math.sin(time/50)`
  is a product of transcendental functions that has no exact rational
  counterpart, so the waveform `t ↦ sin(t/100)·cos(t/200)·sin(t/50)` is
  abstracted as an explicit parameter `noiseWave : ℚ → ℚ` threaded through the
  simulator; `generateNoise` multiplies it by the amplitude exactly as the
  source does.  Every theorem below is quantified over the waveform, and all
  concrete evaluations use a patient with `noiseLevel = 0`, for which the
  waveform is irrelevant (`w t * 0 = 0`).
* The mutable instance field `this.intervalMinutes` of the `GlucoseSimulator`
  class is modelled by explicit state passing (`SimulatorState`).
* The global clock read `new Date()` inside `simulate` is modelled by an
  explicit `now : ℤ` argument representing the wall-clock value at the moment
  of the call.
-/

/-- `src/types/index.ts`: `Treatment.type` is `'carb' | 'insulin'`. -/
inductive TreatmentType where
  | carb : TreatmentType
  | insulin : TreatmentType
deriving DecidableEq

/-- `src/types/index.ts`: `Treatment` (metadata is not read by the simulator). -/
structure Treatment where
  id : String
  timestamp : ℤ
  type : TreatmentType
  value : ℚ
deriving DecidableEq

/-- `src/types/index.ts`: `Patient.targetGlucose`. -/
structure TargetRange where
  low : ℚ
  high : ℚ
deriving DecidableEq

/-- `src/types/index.ts`: `Patient` (the `createdAt`/`updatedAt` bookkeeping
fields are never read by the simulator and are omitted). -/
structure Patient where
  id : String
  name : String
  weight : ℚ
  totalDailyDose : ℚ
  insulinSensitivity : ℚ
  carbRatio : ℚ
  basalRates : List ℚ
  targetGlucose : TargetRange
  insulinDuration : ℚ
  carbAbsorptionRate : ℚ
  liverGlucoseProduction : ℚ
  currentGlucose : ℚ
  noiseLevel : ℚ
deriving DecidableEq

/-- `src/types/index.ts`: `GlucoseReading`. -/
structure GlucoseReading where
  id : String
  timestamp : ℤ
  value : ℚ
  iob : ℚ
  cob : ℚ
  isFuture : Bool
  patientId : String
deriving DecidableEq

/-- `src/types/index.ts`: `InsulinCurve` control point. -/
structure InsulinCurvePoint where
  time : ℚ
  activity : ℚ
deriving DecidableEq

/-- `src/types/index.ts`: `CarbAbsorption` control point. -/
structure CarbAbsorptionPoint where
  time : ℚ
  absorption : ℚ
deriving DecidableEq

instance : Inhabited InsulinCurvePoint := ⟨⟨0, 0⟩⟩

instance : Inhabited CarbAbsorptionPoint := ⟨⟨0, 0⟩⟩

/-- `src/types/index.ts`: `DEFAULT_INSULIN_CURVE`. -/
def DEFAULT_INSULIN_CURVE : List InsulinCurvePoint :=
  [⟨0, 0⟩, ⟨15, 1/10⟩, ⟨30, 3/10⟩, ⟨60, 7/10⟩, ⟨90, 1⟩,
   ⟨120, 4/5⟩, ⟨180, 1/2⟩, ⟨240, 1/5⟩, ⟨300, 1/20⟩, ⟨360, 0⟩]

/-- `src/types/index.ts`: `DEFAULT_CARB_CURVE`. -/
def DEFAULT_CARB_CURVE : List CarbAbsorptionPoint :=
  [⟨0, 0⟩, ⟨15, 1/5⟩, ⟨30, 1/2⟩, ⟨60, 4/5⟩, ⟨90, 19/20⟩, ⟨120, 1⟩]

/-- `alignToFiveMinutes` (`glucoseSimulator.ts` lines 12–25).  On the epoch
millisecond representation: `setMinutes(minutes - remainder)` shifts the value
by `remainder` minutes, and `setSeconds(0)`/`setMilliseconds(0)` zero the
sub-minute part; both happen only in the `remainder ≠ 0` branch. -/
def alignToFiveMinutes (t : ℤ) : ℤ :=
  let minutes := (t / 60000) % 60
  let remainder := minutes % 5
  if remainder ≠ 0 then t - remainder * 60000 - t % 60000 else t

/-- The state held by the `GlucoseSimulator` class instance:
`private intervalMinutes = 5` (`glucoseSimulator.ts` line 41). -/
structure SimulatorState where
  intervalMinutes : ℤ
deriving DecidableEq

/-- The state of the freshly constructed singleton `new GlucoseSimulator()`. -/
def initialSimulatorState : SimulatorState := ⟨5⟩

/-- `SimulationParams` (`glucoseSimulator.ts` lines 27–33); the optional
`intervalMinutes` is `Option ℤ` (all call sites pass integers; the default `5`
is applied by `simulate` itself, as in the source destructuring). -/
structure SimulationParams where
  patient : Patient
  treatments : List Treatment
  startTime : ℤ
  durationHours : ℚ
  intervalMinutes : Option ℤ
deriving DecidableEq

/-- `generateNoise` (lines 46–50): `seed * amplitude`, where in the source
`seed = sin(time/100)·cos(time/200)·sin(time/50)`; the transcendental waveform
is the abstracted parameter `noiseWave` (see the module docstring). -/
def generateNoise (noiseWave : ℚ → ℚ) (time amplitude : ℚ) : ℚ :=
  noiseWave time * amplitude

/-- The bracket-search loop of `getInsulinActivity` (lines 62–68): the first
`i` with `curve[i].time ≤ e ∧ e ≤ curve[i+1].time` selects `(prev, next)`;
`none` models the loop completing without a `break`. -/
def findBracketIns (e : ℚ) : List InsulinCurvePoint →
    Option (InsulinCurvePoint × InsulinCurvePoint)
  | p :: q :: rest =>
      if p.time ≤ e ∧ e ≤ q.time then some (p, q) else findBracketIns e (q :: rest)
  | _ => none

/-- The identical bracket-search loop of `getCarbAbsorption` (lines 91–97). -/
def findBracketCarb (e : ℚ) : List CarbAbsorptionPoint →
    Option (CarbAbsorptionPoint × CarbAbsorptionPoint)
  | p :: q :: rest =>
      if p.time ≤ e ∧ e ≤ q.time then some (p, q) else findBracketCarb e (q :: rest)
  | _ => none

/-- `getInsulinActivity` (lines 55–80) over an explicit curve.  The defaults
`prevPoint = curve[0]`, `nextPoint = curve[curve.length-1]` are `headI` and
`getLastD`; the terminal check `minutesElapsed >= curve[last].time` returns
`0` ("insulin has worn off") before the interpolation. -/
def getInsulinActivityOn (curve : List InsulinCurvePoint) (minutesElapsed : ℚ) : ℚ :=
  if minutesElapsed ≤ 0 then 0
  else
    let fallback : InsulinCurvePoint × InsulinCurvePoint :=
      (curve.headI, curve.getLastD ⟨0, 0⟩)
    let bracket := (findBracketIns minutesElapsed curve).getD fallback
    if (curve.getLastD ⟨0, 0⟩).time ≤ minutesElapsed then 0
    else
      bracket.1.activity + (bracket.2.activity - bracket.1.activity) *
        ((minutesElapsed - bracket.1.time) / (bracket.2.time - bracket.1.time))

/-- `getInsulinActivity` with the default curve argument, as used by every
call site in the source. -/
def getInsulinActivity (minutesElapsed : ℚ) : ℚ :=
  getInsulinActivityOn DEFAULT_INSULIN_CURVE minutesElapsed

/-- `getCarbAbsorption` (lines 85–109); terminal value `1.0` ("fully
absorbed"). -/
def getCarbAbsorptionOn (curve : List CarbAbsorptionPoint) (minutesElapsed : ℚ) : ℚ :=
  if minutesElapsed ≤ 0 then 0
  else
    let fallback : CarbAbsorptionPoint × CarbAbsorptionPoint :=
      (curve.headI, curve.getLastD ⟨0, 0⟩)
    let bracket := (findBracketCarb minutesElapsed curve).getD fallback
    if (curve.getLastD ⟨0, 0⟩).time ≤ minutesElapsed then 1
    else
      bracket.1.absorption + (bracket.2.absorption - bracket.1.absorption) *
        ((minutesElapsed - bracket.1.time) / (bracket.2.time - bracket.1.time))

/-- `getCarbAbsorption` with the default curve argument. -/
def getCarbAbsorption (minutesElapsed : ℚ) : ℚ :=
  getCarbAbsorptionOn DEFAULT_CARB_CURVE minutesElapsed

/-- `(currentTime.getTime() - treatment.timestamp.getTime()) / (1000 * 60)`. -/
def minutesElapsedAt (currentTime ts : ℤ) : ℚ :=
  ((currentTime - ts : ℤ) : ℚ) / (1000 * 60)

/-- `calculateIOB` (lines 114–129). -/
def calculateIOB (currentTime : ℤ) (treatments : List Treatment) (patient : Patient) : ℚ :=
  let totalIOB := treatments.foldl
    (fun acc treatment =>
      if treatment.type ≠ TreatmentType.insulin then acc
      else
        let minutesElapsed := minutesElapsedAt currentTime treatment.timestamp
        if minutesElapsed < 0 ∨ minutesElapsed > patient.insulinDuration * 60 then acc
        else acc + treatment.value * (1 - getInsulinActivity minutesElapsed))
    0
  max 0 totalIOB

/-- `calculateCOB` (lines 134–149). -/
def calculateCOB (currentTime : ℤ) (treatments : List Treatment) (patient : Patient) : ℚ :=
  let totalCOB := treatments.foldl
    (fun acc treatment =>
      if treatment.type ≠ TreatmentType.carb then acc
      else
        let minutesElapsed := minutesElapsedAt currentTime treatment.timestamp
        if minutesElapsed < 0 ∨ minutesElapsed > patient.carbAbsorptionRate * 60 then acc
        else acc + treatment.value * (1 - getCarbAbsorption minutesElapsed))
    0
  max 0 totalCOB

/-- `calculateInsulinEffect` (lines 154–173); `iv` is `this.intervalMinutes`. -/
def calculateInsulinEffect (iv : ℤ) (currentTime : ℤ) (treatments : List Treatment)
    (patient : Patient) : ℚ :=
  treatments.foldl
    (fun acc treatment =>
      if treatment.type ≠ TreatmentType.insulin then acc
      else
        let minutesElapsed := minutesElapsedAt currentTime treatment.timestamp
        if minutesElapsed < 0 ∨ minutesElapsed > patient.insulinDuration * 60 then acc
        else
          let activity := getInsulinActivity minutesElapsed
          let currentActivity := getInsulinActivity (minutesElapsed - iv)
          let deltaActivity := activity - max 0 currentActivity
          if deltaActivity > 0 then
            acc + deltaActivity * treatment.value * patient.insulinSensitivity
          else acc)
    0

/-- `calculateCarbEffect` (lines 178–198). -/
def calculateCarbEffect (iv : ℤ) (currentTime : ℤ) (treatments : List Treatment)
    (patient : Patient) : ℚ :=
  treatments.foldl
    (fun acc treatment =>
      if treatment.type ≠ TreatmentType.carb then acc
      else
        let minutesElapsed := minutesElapsedAt currentTime treatment.timestamp
        if minutesElapsed < 0 ∨ minutesElapsed > patient.carbAbsorptionRate * 60 then acc
        else
          let absorption := getCarbAbsorption minutesElapsed
          let previousAbsorption := getCarbAbsorption (minutesElapsed - iv)
          let deltaAbsorption := absorption - max 0 previousAbsorption
          if deltaAbsorption > 0 then
            acc + deltaAbsorption * treatment.value / patient.carbRatio *
              patient.insulinSensitivity
          else acc)
    0

/-- `calculateBasalEffect` (lines 203–209); `getHours` is the UTC hour field.
A JavaScript out-of-range index read yields `undefined` (and `NaN` arithmetic);
the embedding uses `getD _ 0`, and no theorem below evaluates the simulator on
a basal array shorter than 24 entries. -/
def calculateBasalEffect (iv : ℤ) (currentTime : ℤ) (patient : Patient) : ℚ :=
  let hour := ((currentTime / 3600000) % 24).toNat
  let basalRate := patient.basalRates.getD hour 0
  let basalInsulinPerInterval := basalRate * (iv : ℚ) / 60
  basalInsulinPerInterval * patient.insulinSensitivity

/-- `calculateLiverGlucoseProduction` (lines 214–216). -/
def calculateLiverGlucoseProduction (iv : ℤ) (patient : Patient) : ℚ :=
  patient.liverGlucoseProduction * (iv : ℤ)

/-- One `i > 0` loop iteration of `simulate` (lines 236–253): the five
additive effects applied in source order, then the clamp
`Math.max(40, Math.min(400, glucose))`. -/
def stepGlucose (noiseWave : ℚ → ℚ) (iv : ℤ) (patient : Patient)
    (treatments : List Treatment) (alignedStartTime : ℤ) (i : ℕ) (glucose : ℚ) : ℚ :=
  let currentTime := alignedStartTime + (i : ℤ) * iv * 60000
  let timeElapsed := ((i : ℤ) * iv : ℤ)
  let insulinEffect := calculateInsulinEffect iv currentTime treatments patient
  let carbEffect := calculateCarbEffect iv currentTime treatments patient
  let basalEffect := calculateBasalEffect iv currentTime patient
  let liverProduction := calculateLiverGlucoseProduction iv patient
  let noise := generateNoise noiseWave (timeElapsed : ℚ) patient.noiseLevel
  max 40 (min 400 (glucose - insulinEffect + carbEffect - basalEffect +
    liverProduction + noise))

/-- The running `currentGlucose` of the `simulate` loop after `i` iterations;
`glucoseAt 0 = patient.currentGlucose` is the unmodified anchor (line 227). -/
def glucoseAt (noiseWave : ℚ → ℚ) (iv : ℤ) (patient : Patient)
    (treatments : List Treatment) (alignedStartTime : ℤ) : ℕ → ℚ
  | 0 => patient.currentGlucose
  | i + 1 =>
      stepGlucose noiseWave iv patient treatments alignedStartTime (i + 1)
        (glucoseAt noiseWave iv patient treatments alignedStartTime i)

/-- The reading pushed at loop index `i` (lines 255–267), with the rounding of
`value`/`iob`/`cob` and `isFuture = currentTime > new Date()` (the global
clock read is the explicit `now`). -/
def mkReading (noiseWave : ℚ → ℚ) (iv : ℤ) (patient : Patient)
    (treatments : List Treatment) (alignedStartTime now : ℤ) (i : ℕ) : GlucoseReading :=
  let currentTime := alignedStartTime + (i : ℤ) * iv * 60000
  let iob := calculateIOB currentTime treatments patient
  let cob := calculateCOB currentTime treatments patient
  { id := "glucose_" ++ toString currentTime
    timestamp := currentTime
    value := (round (glucoseAt noiseWave iv patient treatments alignedStartTime i * 10) : ℤ) / 10
    iob := (round (iob * 100) : ℤ) / 100
    cob := (round (cob * 10) : ℤ) / 10
    isFuture := now < currentTime
    patientId := patient.id }

/-- The reading list produced by the `simulate` loop (lines 225–268):
`totalIntervals = Math.ceil(durationHours*60/intervalMinutes)` and the loop
runs `i = 0 … totalIntervals` inclusive (`(⌈…⌉+1).toNat` samples; for a
negative count the JavaScript loop body never runs and the list is empty). -/
def simulateReadings (noiseWave : ℚ → ℚ) (iv : ℤ) (patient : Patient)
    (treatments : List Treatment) (startTime now : ℤ) (durationHours : ℚ) :
    List GlucoseReading :=
  let totalIntervals : ℤ := ⌈durationHours * 60 / (iv : ℚ)⌉
  let alignedStartTime := alignToFiveMinutes startTime
  (List.range (totalIntervals + 1).toNat).map
    (mkReading noiseWave iv patient treatments alignedStartTime now)

/-- `simulate` (lines 221–271).  The method first overwrites the instance
field (`this.intervalMinutes = intervalMinutes`, default `5`), so the incoming
state is ignored and the returned state carries the new interval. -/
def simulate (noiseWave : ℚ → ℚ) (_st : SimulatorState) (params : SimulationParams)
    (now : ℤ) : SimulatorState × List GlucoseReading :=
  let iv := params.intervalMinutes.getD 5
  (⟨iv⟩,
    simulateReadings noiseWave iv params.patient params.treatments params.startTime
      now params.durationHours)

/-- `simulateForward` (lines 276–297): filters to treatments from the last 24
hours, aligns `now`, and calls `simulate` with the instance interval. -/
def simulateForward (noiseWave : ℚ → ℚ) (st : SimulatorState) (patient : Patient)
    (treatments : List Treatment) (hoursForward : ℚ) (now : ℤ) :
    SimulatorState × List GlucoseReading :=
  let alignedNow := alignToFiveMinutes now
  let relevantTreatments := treatments.filter
    (fun t => decide ((((now - t.timestamp : ℤ) : ℚ) / (1000 * 60 * 60)) ≤ 24))
  simulate noiseWave st
    { patient := patient
      treatments := relevantTreatments
      startTime := alignedNow
      durationHours := hoursForward
      intervalMinutes := some st.intervalMinutes }
    now

/-- The filter `existingReadings.filter(r => r.timestamp < fromTime && !r.isFuture)`
of `updateSimulation` (lines 309–311). -/
def keptReadings (existingReadings : List GlucoseReading) (fromTime : ℤ) :
    List GlucoseReading :=
  existingReadings.filter (fun r => decide (r.timestamp < fromTime) && !r.isFuture)

/-- Stable insertion of a reading into a list sorted by descending timestamp;
together with `sortByTimestampDesc` this models the in-place
`pastReadings.sort((a, b) => b.timestamp.getTime() - a.timestamp.getTime())`
(line 315), which JavaScript guarantees to be a stable descending sort. -/
def insertByTimestampDesc (r : GlucoseReading) : List GlucoseReading → List GlucoseReading
  | [] => [r]
  | x :: xs =>
      if x.timestamp ≤ r.timestamp then r :: x :: xs
      else x :: insertByTimestampDesc r xs

/-- Stable sort by descending timestamp (see `insertByTimestampDesc`). -/
def sortByTimestampDesc : List GlucoseReading → List GlucoseReading
  | [] => []
  | x :: xs => insertByTimestampDesc x (sortByTimestampDesc xs)

/-- Lines 314–320: `latestPastReading = sorted[0]`; when it exists the patient
is re-anchored to its value, otherwise (an `undefined` index read on the empty
array) the patient is left unchanged. -/
def reanchor (patient : Patient) (sorted : List GlucoseReading) : Patient :=
  match sorted.head? with
  | some latest => { patient with currentGlucose := latest.value }
  | none => patient

/-- `updateSimulation` (lines 302–334).  Note that the in-place `.sort` on
line 315 mutates `pastReadings`, so the array spread on line 333 concatenates
the *descending-sorted* kept readings with the new projection. -/
def updateSimulation (noiseWave : ℚ → ℚ) (st : SimulatorState) (patient : Patient)
    (treatments : List Treatment) (existingReadings : List GlucoseReading)
    (fromTime now : ℤ) : SimulatorState × List GlucoseReading :=
  let sorted := sortByTimestampDesc (keptReadings existingReadings fromTime)
  let patient' := reanchor patient sorted
  let res := simulate noiseWave st
    { patient := patient'
      treatments := treatments
      startTime := fromTime
      durationHours := 12
      intervalMinutes := some st.intervalMinutes }
    now
  (res.1, sorted ++ res.2)

/-- Modelled from the spec: the code contains no profile validation at all, so
the `PatientProfile` invariant of spec §3/§7 ("all rate/duration fields
strictly positive; `basalRates` has exactly 24 entries"; `low < high`;
non-negative production and noise) is stated here from the spec's words in
order to settle the error-handling claim. -/
def ProfileValidSpec (p : Patient) : Prop :=
  0 < p.weight ∧ 0 < p.insulinSensitivity ∧ 0 < p.carbRatio ∧
  p.basalRates.length = 24 ∧ (∀ b ∈ p.basalRates, 0 ≤ b) ∧
  p.targetGlucose.low < p.targetGlucose.high ∧
  0 < p.insulinDuration ∧ 0 < p.carbAbsorptionRate ∧
  0 ≤ p.liverGlucoseProduction ∧ 0 ≤ p.noiseLevel

instance (p : Patient) : Decidable (ProfileValidSpec p) := by
  unfold ProfileValidSpec; infer_instance

/-- The constant-zero noise waveform used in concrete evaluations. -/
def zeroNoise : ℚ → ℚ := fun _ => 0

/-- A concrete patient with all dynamic effects switched off (zero basal
rates, zero liver production, zero noise): glucose stays at 120 exactly. -/
def basicPatient : Patient :=
  { id := "p"
    name := "P"
    weight := 70
    totalDailyDose := 40
    insulinSensitivity := 50
    carbRatio := 12
    basalRates := List.replicate 24 0
    targetGlucose := ⟨80, 140⟩
    insulinDuration := 6
    carbAbsorptionRate := 2
    liverGlucoseProduction := 0
    currentGlucose := 120
    noiseLevel := 0 }

/-! ### Helper lemmas -/

lemma mkReading_timestamp (noiseWave : ℚ → ℚ) (iv : ℤ) (patient : Patient)
    (treatments : List Treatment) (a now : ℤ) (i : ℕ) :
    (mkReading noiseWave iv patient treatments a now i).timestamp =
      a + (i : ℤ) * iv * 60000 := rfl

lemma mkReading_value (noiseWave : ℚ → ℚ) (iv : ℤ) (patient : Patient)
    (treatments : List Treatment) (a now : ℤ) (i : ℕ) :
    (mkReading noiseWave iv patient treatments a now i).value =
      ((round (glucoseAt noiseWave iv patient treatments a i * 10) : ℤ) : ℚ) / 10 := rfl

lemma mkReading_iob (noiseWave : ℚ → ℚ) (iv : ℤ) (patient : Patient)
    (treatments : List Treatment) (a now : ℤ) (i : ℕ) :
    (mkReading noiseWave iv patient treatments a now i).iob =
      ((round (calculateIOB (a + (i : ℤ) * iv * 60000) treatments patient * 100) : ℤ) : ℚ) /
        100 := rfl

lemma mkReading_cob (noiseWave : ℚ → ℚ) (iv : ℤ) (patient : Patient)
    (treatments : List Treatment) (a now : ℤ) (i : ℕ) :
    (mkReading noiseWave iv patient treatments a now i).cob =
      ((round (calculateCOB (a + (i : ℤ) * iv * 60000) treatments patient * 10) : ℤ) : ℚ) /
        10 := rfl

lemma mem_simulateReadings {noiseWave : ℚ → ℚ} {iv : ℤ} {patient : Patient}
    {treatments : List Treatment} {startTime now : ℤ} {durationHours : ℚ}
    {r : GlucoseReading} :
    r ∈ simulateReadings noiseWave iv patient treatments startTime now durationHours ↔
      ∃ i, i < (⌈durationHours * 60 / (iv : ℚ)⌉ + 1).toNat ∧
        r = mkReading noiseWave iv patient treatments (alignToFiveMinutes startTime) now i := by
  simp only [simulateReadings, List.mem_map, List.mem_range]
  constructor
  · rintro ⟨i, hi, rfl⟩; exact ⟨i, hi, rfl⟩
  · rintro ⟨i, hi, rfl⟩; exact ⟨i, hi, rfl⟩

lemma tail_map_range {α : Type} (f : ℕ → α) (n : ℕ) :
    ((List.range n).map f).tail = (List.range (n - 1)).map (fun i => f (i + 1)) := by
  cases n with
  | zero => simp
  | succ m =>
      rw [List.range_succ_eq_map]
      simp only [List.map_cons, List.tail_cons, List.map_map, Nat.succ_sub_one]
      rfl

lemma mem_tail_simulateReadings {noiseWave : ℚ → ℚ} {iv : ℤ} {patient : Patient}
    {treatments : List Treatment} {startTime now : ℤ} {durationHours : ℚ}
    {r : GlucoseReading}
    (h : r ∈ (simulateReadings noiseWave iv patient treatments startTime now
        durationHours).tail) :
    ∃ i, r = mkReading noiseWave iv patient treatments (alignToFiveMinutes startTime) now
        (i + 1) := by
  unfold simulateReadings at h
  rw [tail_map_range] at h
  obtain ⟨i, _, hi⟩ := List.mem_map.mp h
  exact ⟨i, hi.symm⟩

lemma round_mul_ten_div_ten_bounds {g : ℚ} (h1 : 40 ≤ g) (h2 : g ≤ 400) :
    40 ≤ ((round (g * 10) : ℤ) : ℚ) / 10 ∧ ((round (g * 10) : ℤ) : ℚ) / 10 ≤ 400 := by
  have hl : (400 : ℤ) ≤ round (g * 10) := by
    rw [round_eq]
    exact Int.le_floor.mpr (by push_cast; linarith)
  have hu : round (g * 10) ≤ 4000 := by
    rw [round_eq]
    have hmono := Int.floor_mono (show g * 10 + 1 / 2 ≤ (8001 / 2 : ℚ) by linarith)
    have h4000 : ⌊(8001 / 2 : ℚ)⌋ = 4000 := by norm_num [Int.floor_eq_iff]
    omega
  have hlq : ((400 : ℤ) : ℚ) ≤ ((round (g * 10) : ℤ) : ℚ) := by exact_mod_cast hl
  have huq : ((round (g * 10) : ℤ) : ℚ) ≤ ((4000 : ℤ) : ℚ) := by exact_mod_cast hu
  constructor
  · rw [le_div_iff₀ (by norm_num : (0:ℚ) < 10)]
    push_cast at hlq ⊢
    linarith
  · rw [div_le_iff₀ (by norm_num : (0:ℚ) < 10)]
    push_cast at huq ⊢
    linarith

lemma glucoseAt_succ_bounds (noiseWave : ℚ → ℚ) (iv : ℤ) (patient : Patient)
    (treatments : List Treatment) (a : ℤ) (i : ℕ) :
    40 ≤ glucoseAt noiseWave iv patient treatments a (i + 1) ∧
      glucoseAt noiseWave iv patient treatments a (i + 1) ≤ 400 := by
  rw [glucoseAt]
  unfold stepGlucose
  exact ⟨le_max_left _ _, max_le (by norm_num) (min_le_left _ _)⟩

lemma mem_insertByTimestampDesc {a r : GlucoseReading} {l : List GlucoseReading} :
    a ∈ insertByTimestampDesc r l ↔ a = r ∨ a ∈ l := by
  induction l with
  | nil => simp [insertByTimestampDesc]
  | cons x xs ih =>
      rw [insertByTimestampDesc]
      split
      · simp [List.mem_cons]
      · simp only [List.mem_cons, ih]
        tauto

lemma mem_sortByTimestampDesc {a : GlucoseReading} {l : List GlucoseReading} :
    a ∈ sortByTimestampDesc l ↔ a ∈ l := by
  induction l with
  | nil => simp [sortByTimestampDesc]
  | cons x xs ih =>
      rw [sortByTimestampDesc, mem_insertByTimestampDesc]
      simp [ih]

lemma sorted_insertByTimestampDesc {r : GlucoseReading} {l : List GlucoseReading}
    (h : List.Sorted (fun a b : GlucoseReading => b.timestamp ≤ a.timestamp) l) :
    List.Sorted (fun a b : GlucoseReading => b.timestamp ≤ a.timestamp)
      (insertByTimestampDesc r l) := by
  induction l with
  | nil => simp [insertByTimestampDesc]
  | cons x xs ih =>
      rw [List.sorted_cons] at h
      obtain ⟨hx, hxs⟩ := h
      by_cases hc : x.timestamp ≤ r.timestamp
      · rw [insertByTimestampDesc, if_pos hc, List.sorted_cons]
        refine ⟨?_, ?_⟩
        · intro b hb
          rcases List.mem_cons.mp hb with rfl | hb
          · exact hc
          · exact le_trans (hx b hb) hc
        · rw [List.sorted_cons]
          exact ⟨hx, hxs⟩
      · rw [insertByTimestampDesc, if_neg hc, List.sorted_cons]
        refine ⟨?_, ih hxs⟩
        intro b hb
        rcases mem_insertByTimestampDesc.mp hb with rfl | hb
        · exact le_of_lt (lt_of_not_le hc)
        · exact hx b hb

lemma sorted_sortByTimestampDesc (l : List GlucoseReading) :
    List.Sorted (fun a b : GlucoseReading => b.timestamp ≤ a.timestamp)
      (sortByTimestampDesc l) := by
  induction l with
  | nil => simp [sortByTimestampDesc]
  | cons x xs ih => exact sorted_insertByTimestampDesc ih

lemma head_sortByTimestampDesc_max {l : List GlucoseReading} {latest : GlucoseReading}
    (h : (sortByTimestampDesc l).head? = some latest) :
    ∀ r ∈ l, r.timestamp ≤ latest.timestamp := by
  intro r hr
  have hmem : r ∈ sortByTimestampDesc l := mem_sortByTimestampDesc.mpr hr
  have hs := sorted_sortByTimestampDesc l
  obtain ⟨rest, hrest⟩ : ∃ rest, sortByTimestampDesc l = latest :: rest := by
    cases hl : sortByTimestampDesc l with
    | nil => rw [hl] at h; simp at h
    | cons a as =>
        rw [hl] at h
        simp only [List.head?_cons, Option.some.injEq] at h
        exact ⟨as, by rw [← h]⟩
  rw [hrest] at hmem hs
  rw [List.sorted_cons] at hs
  rcases List.mem_cons.mp hmem with rfl | hmem
  · exact le_refl _
  · exact hs.1 r hmem

lemma mem_keptReadings {r : GlucoseReading} {existingReadings : List GlucoseReading}
    {fromTime : ℤ} :
    r ∈ keptReadings existingReadings fromTime ↔
      r ∈ existingReadings ∧ r.timestamp < fromTime ∧ r.isFuture = false := by
  simp only [keptReadings, List.mem_filter, Bool.and_eq_true, decide_eq_true_eq,
    Bool.not_eq_true']

lemma reanchor_of_head_some {patient : Patient} {sorted : List GlucoseReading}
    {latest : GlucoseReading} (h : sorted.head? = some latest) :
    reanchor patient sorted = { patient with currentGlucose := latest.value } := by
  unfold reanchor
  rw [h]

lemma reanchor_of_head_none {patient : Patient} {sorted : List GlucoseReading}
    (h : sorted.head? = none) : reanchor patient sorted = patient := by
  unfold reanchor
  rw [h]

lemma updateSimulation_snd (noiseWave : ℚ → ℚ) (st : SimulatorState) (patient : Patient)
    (treatments : List Treatment) (existingReadings : List GlucoseReading)
    (fromTime now : ℤ) :
    (updateSimulation noiseWave st patient treatments existingReadings fromTime now).2 =
      sortByTimestampDesc (keptReadings existingReadings fromTime) ++
        simulateReadings noiseWave st.intervalMinutes
          (reanchor patient (sortByTimestampDesc (keptReadings existingReadings fromTime)))
          treatments fromTime now 12 := rfl

lemma chain'_timestamps_simulateReadings (noiseWave : ℚ → ℚ) (iv : ℤ) (patient : Patient)
    (treatments : List Treatment) (startTime now : ℤ) (durationHours : ℚ) :
    List.Chain' (fun a b : GlucoseReading => b.timestamp = a.timestamp + iv * 60000)
      (simulateReadings noiseWave iv patient treatments startTime now durationHours) := by
  unfold simulateReadings
  rw [List.chain'_map]
  cases hn : (⌈durationHours * 60 / (iv : ℚ)⌉ + 1).toNat with
  | zero => simp
  | succ m =>
      rw [List.chain'_range_succ]
      intro i _
      rw [mkReading_timestamp, mkReading_timestamp]
      push_cast
      ring

lemma timestamp_head_simulateReadings {noiseWave : ℚ → ℚ} {iv : ℤ} {patient : Patient}
    {treatments : List Treatment} {startTime now : ℤ} {durationHours : ℚ}
    {s : GlucoseReading}
    (h : (simulateReadings noiseWave iv patient treatments startTime now
        durationHours).head? = some s) :
    s.timestamp = alignToFiveMinutes startTime := by
  simp only [simulateReadings] at h
  cases hn : (⌈durationHours * 60 / (iv : ℚ)⌉ + 1).toNat with
  | zero => rw [hn] at h; simp at h
  | succ m =>
      rw [hn, List.range_succ_eq_map] at h
      simp only [List.map_cons, List.head?_cons, Option.some.injEq] at h
      rw [← h, mkReading_timestamp]
      push_cast
      ring

lemma align_div_mod5 (t : ℤ) : (alignToFiveMinutes t / 60000) % 5 = 0 := by
  simp only [alignToFiveMinutes]
  have hr5 : (t / 60000 % 60) % 5 = (t / 60000) % 5 :=
    Int.emod_emod_of_dvd (t / 60000) (by norm_num : (5:ℤ) ∣ 60)
  split
  · have hdm : 60000 * (t / 60000) + t % 60000 = t := Int.ediv_add_emod t 60000
    have ht : t - (t / 60000 % 60) % 5 * 60000 - t % 60000 =
        (t / 60000 - (t / 60000 % 60) % 5) * 60000 := by linarith
    rw [ht, Int.mul_ediv_cancel _ (by norm_num : (60000:ℤ) ≠ 0), hr5,
      Int.sub_emod, Int.emod_emod_of_dvd _ (dvd_refl 5), sub_self, Int.zero_emod]
  · rename_i h
    rw [← hr5]
    exact not_ne_iff.mp h

lemma align_minute_multiple (t : ℤ) (i : ℕ) :
    ((alignToFiveMinutes t + (i : ℤ) * 5 * 60000) / 60000 % 60) % 5 = 0 := by
  rw [Int.emod_emod_of_dvd _ (by norm_num : (5:ℤ) ∣ 60),
    Int.add_mul_ediv_right _ ((i : ℤ) * 5) (by norm_num : (60000:ℤ) ≠ 0),
    Int.add_mul_emod_self, align_div_mod5]

lemma align_subminute (t : ℤ) (i : ℕ)
    (h : alignToFiveMinutes t % 60000 = 0) :
    (alignToFiveMinutes t + (i : ℤ) * 5 * 60000) % 60000 = 0 := by
  generalize alignToFiveMinutes t = a at h ⊢
  calc (a + (i : ℤ) * 5 * 60000) % 60000 = a % 60000 := Int.add_mul_emod_self
    _ = 0 := h

lemma findBracketIns_skip {e t0 f0 t1 f1 : ℚ} {rest : List InsulinCurvePoint}
    (h : ¬ (t0 ≤ e ∧ e ≤ t1)) :
    findBracketIns e (⟨t0, f0⟩ :: ⟨t1, f1⟩ :: rest) = findBracketIns e (⟨t1, f1⟩ :: rest) :=
  if_neg h

lemma findBracketIns_found {e t0 f0 t1 f1 : ℚ} {rest : List InsulinCurvePoint}
    (h : t0 ≤ e ∧ e ≤ t1) :
    findBracketIns e (⟨t0, f0⟩ :: ⟨t1, f1⟩ :: rest) =
      some (⟨t0, f0⟩, ⟨t1, f1⟩) :=
  if_pos h

lemma findBracketCarb_skip {e t0 f0 t1 f1 : ℚ} {rest : List CarbAbsorptionPoint}
    (h : ¬ (t0 ≤ e ∧ e ≤ t1)) :
    findBracketCarb e (⟨t0, f0⟩ :: ⟨t1, f1⟩ :: rest) = findBracketCarb e (⟨t1, f1⟩ :: rest) :=
  if_neg h

lemma findBracketCarb_found {e t0 f0 t1 f1 : ℚ} {rest : List CarbAbsorptionPoint}
    (h : t0 ≤ e ∧ e ≤ t1) :
    findBracketCarb e (⟨t0, f0⟩ :: ⟨t1, f1⟩ :: rest) =
      some (⟨t0, f0⟩, ⟨t1, f1⟩) :=
  if_pos h

lemma lastIns : DEFAULT_INSULIN_CURVE.getLastD ⟨0, 0⟩ = ⟨360, 0⟩ := rfl

lemma lastCarb : DEFAULT_CARB_CURVE.getLastD ⟨0, 0⟩ = ⟨120, 1⟩ := by decide

/-! ### Concrete fixtures -/

/-- A single insulin treatment of 1 unit at epoch 0. -/
def singleInsulin : Treatment := ⟨"t1", 0, TreatmentType.insulin, 1⟩

/-- A profile violating the spec invariant `targetGlucose.low < targetGlucose.high`. -/
def invalidPatient : Patient := { basicPatient with targetGlucose := ⟨200, 100⟩ }

/-- A past (realized) reading at epoch 0. -/
def cexKeptA : GlucoseReading := ⟨"r1", 0, 100, 0, 0, false, "p"⟩

/-- A past (realized) reading at epoch 300000 (five minutes). -/
def cexKeptB : GlucoseReading := ⟨"r2", 300000, 110, 0, 0, false, "p"⟩

instance : Inhabited GlucoseReading := ⟨⟨"", 0, 0, 0, 0, false, ""⟩⟩

lemma headI_mem {l : List GlucoseReading} (h : l ≠ []) : l.headI ∈ l := by
  cases l with
  | nil => exact absurd rfl h
  | cons a as => exact List.mem_cons_self _ _

/-- The projection of a `GlucoseReading` onto every field except `isFuture`. -/
def readingCore (r : GlucoseReading) : String × ℤ × ℚ × ℚ × ℚ × String :=
  (r.id, r.timestamp, r.value, r.iob, r.cob, r.patientId)

/-! ### Claim theorems -/

/-- Claim C1, amended: in every `simulate` output, every reading *after the
anchor* has `40 ≤ value ≤ 400` (the clamp is applied once per `i > 0` step,
after all additive terms), while the `i = 0` anchor reading is emitted
unclamped, with value `round(patient.currentGlucose·10)/10`.  The claimed
bound therefore holds for all emitted samples only when `currentGlucose`
itself lies within the bounds. -/
theorem simulate_step_values_bounded
    (noiseWave : ℚ → ℚ) (st : SimulatorState) (params : SimulationParams) (now : ℤ) :
    (∀ r ∈ ((simulate noiseWave st params now).2).tail,
        40 ≤ r.value ∧ r.value ≤ 400) ∧
    ∀ h0 ∈ ((simulate noiseWave st params now).2).head?,
        h0.value = ((round (params.patient.currentGlucose * 10) : ℤ) : ℚ) / 10 := by
  constructor
  · intro r hr
    obtain ⟨i, rfl⟩ := mem_tail_simulateReadings hr
    rw [mkReading_value]
    have hb := glucoseAt_succ_bounds noiseWave (params.intervalMinutes.getD 5)
      params.patient params.treatments (alignToFiveMinutes params.startTime) i
    exact round_mul_ten_div_ten_bounds hb.1 hb.2
  · intro h0 hh
    rw [Option.mem_def] at hh
    have hrw : (simulate noiseWave st params now).2 =
        simulateReadings noiseWave (params.intervalMinutes.getD 5) params.patient
          params.treatments params.startTime now params.durationHours := rfl
    rw [hrw] at hh
    simp only [simulateReadings] at hh
    cases hn : (⌈params.durationHours * 60 / ((params.intervalMinutes.getD 5 : ℤ) : ℚ)⌉ +
        1).toNat with
    | zero => rw [hn] at hh; simp at hh
    | succ m =>
        rw [hn, List.range_succ_eq_map] at hh
        simp only [List.map_cons, List.head?_cons, Option.some.injEq] at hh
        rw [← hh, mkReading_value]
        rfl

/-- Witness for C1's amended theorem at a concrete input: the reading after
the anchor in a concrete one-step projection is within the clamped range. -/
theorem simulate_step_values_bounded_witness :
    40 ≤ ((simulate zeroNoise initialSimulatorState
        ⟨basicPatient, [], 0, 1/12, none⟩ 0).2).tail.headI.value ∧
      ((simulate zeroNoise initialSimulatorState
        ⟨basicPatient, [], 0, 1/12, none⟩ 0).2).tail.headI.value ≤ 400 :=
  (simulate_step_values_bounded zeroNoise initialSimulatorState
      ⟨basicPatient, [], 0, 1/12, none⟩ 0).1 _
    (headI_mem (by with_unfolding_all decide))

/-- Counterexample to claim C1 as stated: with `patient.currentGlucose = 500`
the anchor reading of `simulate` has value 500 > 400 — the `i = 0` sample is
not clamped. -/
theorem simulate_anchor_unclamped_counterexample :
    ∃ r ∈ (simulate zeroNoise initialSimulatorState
        ⟨{ basicPatient with currentGlucose := 500 }, [], 0, 1/12, none⟩ 0).2,
      400 < r.value := by
  refine ⟨((simulate zeroNoise initialSimulatorState
      ⟨{ basicPatient with currentGlucose := 500 }, [], 0, 1/12, none⟩ 0).2).headI,
    headI_mem (by with_unfolding_all decide), ?_⟩
  with_unfolding_all decide

/-- Claim C3: the code's `calculateIOB` evaluated at the spec's failing
inputs.  For a single 1-unit insulin treatment at epoch 0 (with
`insulinDuration = 6` hours), IOB is 0 at the 90-minute activity peak, rises
back to 1/5 at 120 minutes, and equals the full dose 1 at exactly
`insulinDuration·60 = 360` minutes — contradicting both the claimed
monotone decay beyond the peak and the claimed zero at the duration horizon
(the code treats the instantaneous-activity curve as a cumulative
metabolized fraction). -/
theorem calculateIOB_code_behavior :
    calculateIOB (90 * 60000) [singleInsulin] basicPatient = 0 ∧
    calculateIOB (120 * 60000) [singleInsulin] basicPatient = 1/5 ∧
    calculateIOB (360 * 60000) [singleInsulin] basicPatient = 1 := by
  refine ⟨by with_unfolding_all decide, by with_unfolding_all decide,
    by with_unfolding_all decide⟩

/-- Claim C6, amended: `simulate` performs no input validation whatsoever:
even for a profile violating the spec's `PatientProfile` invariant it emits a
non-empty reading list (for positive duration) instead of an
`InvalidProfile` error — no such error exists anywhere in the code. -/
theorem simulate_no_validation
    (noiseWave : ℚ → ℚ) (st : SimulatorState) (patient : Patient)
    (treatments : List Treatment) (startTime : ℤ) (durationHours : ℚ) (now : ℤ)
    (_hinvalid : ¬ ProfileValidSpec patient) (hdur : 0 < durationHours) :
    (simulate noiseWave st ⟨patient, treatments, startTime, durationHours, some 5⟩
        now).2 ≠ [] := by
  intro h
  have hlen := congrArg List.length h
  simp only [simulate, simulateReadings, Option.getD_some, List.length_map,
    List.length_range, List.length_nil] at hlen
  have h1 : (0:ℤ) < ⌈durationHours * 60 / ((5:ℤ):ℚ)⌉ := by
    rw [Int.ceil_pos]
    positivity
  omega

/-- Witness for C6's amended theorem: a concrete invalid profile (target
range `low = 200 ≥ high = 100`) still yields a non-empty projection. -/
theorem simulate_no_validation_witness :
    (simulate zeroNoise initialSimulatorState ⟨invalidPatient, [], 0, 1, some 5⟩ 0).2 ≠ [] :=
  simulate_no_validation zeroNoise initialSimulatorState invalidPatient [] 0 1 0
    (by decide) (by norm_num)

/-- Counterexample to claim C6 as stated: `invalidPatient` violates the
profile invariant, yet `simulate` produces readings rather than failing. -/
theorem simulate_invalid_profile_counterexample :
    ¬ ProfileValidSpec invalidPatient ∧
    (simulate zeroNoise initialSimulatorState ⟨invalidPatient, [], 0, 1, none⟩ 0).2 ≠ [] := by
  constructor
  · decide
  · intro h
    have hlen := congrArg List.length h
    simp only [simulate, simulateReadings, Option.getD_none, List.length_map,
      List.length_range, List.length_nil] at hlen
    norm_num at hlen

/-- Claim C7, amended: with the wall-clock read modelled as the explicit
`now` argument, `simulate` is a pure function — two calls with identical
inputs and identical `now` agree definitionally — and every output field
except `isFuture` is independent of `now`; but the source reads the global
clock (`new Date()`, line 257) inside `simulate` for `isFuture`, so outputs
for identical declared arguments may still differ in that flag (see the
counterexample). -/
theorem simulate_clock_only_affects_isFuture
    (noiseWave : ℚ → ℚ) (st : SimulatorState) (params : SimulationParams)
    (now now' : ℤ) :
    (simulate noiseWave st params now).1 = (simulate noiseWave st params now').1 ∧
    ((simulate noiseWave st params now).2).map readingCore =
      ((simulate noiseWave st params now').2).map readingCore := by
  refine ⟨rfl, ?_⟩
  simp only [simulate, simulateReadings, List.map_map]
  rfl

/-- Counterexample to claim C7 as stated: the engine does read a global
clock inside `simulate` — with all declared simulation arguments identical,
two different wall-clock instants give different outputs (the `isFuture`
flags differ). -/
theorem simulate_reads_clock_counterexample :
    ((simulate zeroNoise initialSimulatorState ⟨basicPatient, [], 0, 1/12, none⟩
        (-1)).2).map GlucoseReading.isFuture ≠
      ((simulate zeroNoise initialSimulatorState ⟨basicPatient, [], 0, 1/12, none⟩
        0).2).map GlucoseReading.isFuture := by with_unfolding_all decide

/-- Claim C10: every reading emitted by `simulate` has `value` rounded to 1
decimal, `iob` to 2 decimals and `cob` to 1 decimal (`Math.round(x·10^k)/10^k`,
i.e. half-up rounding `⌊x·10^k + 1/2⌋/10^k`), so `value·10`, `iob·100` and
`cob·10` are integers. -/
theorem simulate_output_rounded
    (noiseWave : ℚ → ℚ) (st : SimulatorState) (params : SimulationParams) (now : ℤ)
    (r : GlucoseReading) (hr : r ∈ (simulate noiseWave st params now).2) :
    (r.value * 10).den = 1 ∧ (r.iob * 100).den = 1 ∧ (r.cob * 10).den = 1 := by
  obtain ⟨i, hi, rfl⟩ := mem_simulateReadings.mp hr
  refine ⟨?_, ?_, ?_⟩
  · rw [mkReading_value, div_mul_cancel₀ _ (by norm_num : (10:ℚ) ≠ 0)]
    exact Rat.den_intCast _
  · rw [mkReading_iob, div_mul_cancel₀ _ (by norm_num : (100:ℚ) ≠ 0)]
    exact Rat.den_intCast _
  · rw [mkReading_cob, div_mul_cancel₀ _ (by norm_num : (10:ℚ) ≠ 0)]
    exact Rat.den_intCast _

/-- Witness for C10 at a concrete input: the anchor reading of a concrete
projection has integral `value·10`, `iob·100`, `cob·10`. -/
theorem simulate_output_rounded_witness :
    (((simulate zeroNoise initialSimulatorState
        ⟨basicPatient, [], 0, 1/12, none⟩ 0).2).headI.value * 10).den = 1 ∧
    (((simulate zeroNoise initialSimulatorState
        ⟨basicPatient, [], 0, 1/12, none⟩ 0).2).headI.iob * 100).den = 1 ∧
    (((simulate zeroNoise initialSimulatorState
        ⟨basicPatient, [], 0, 1/12, none⟩ 0).2).headI.cob * 10).den = 1 :=
  simulate_output_rounded zeroNoise initialSimulatorState
    ⟨basicPatient, [], 0, 1/12, none⟩ 0 _
    (headI_mem (by with_unfolding_all decide))

lemma head?_eq_headI {l : List GlucoseReading} (h : l ≠ []) : l.head? = some l.headI := by
  cases l with
  | nil => exact absurd rfl h
  | cons a as => rfl

/-- Claim C2, amended: `reproject` returns the kept past readings sorted in
*descending* timestamp order (the in-place `.sort` with comparator
`b - a` on line 315 mutates the array that is later spread), followed by the
new projection; the new readings start at `alignToFiveMinutes(T)` and
consecutive new timestamps differ by exactly `intervalMinutes` (in ms); and
when `T` lies on the 5-minute grid every kept timestamp is strictly below the
first new timestamp.  The full result is therefore *not* monotonically
increasing whenever two or more readings are kept (see the counterexample). -/
theorem updateSimulation_structure
    (noiseWave : ℚ → ℚ) (st : SimulatorState) (patient : Patient)
    (treatments : List Treatment) (existingReadings : List GlucoseReading)
    (fromTime now : ℤ) :
    (updateSimulation noiseWave st patient treatments existingReadings fromTime now).2 =
      sortByTimestampDesc (keptReadings existingReadings fromTime) ++
        simulateReadings noiseWave st.intervalMinutes
          (reanchor patient (sortByTimestampDesc (keptReadings existingReadings fromTime)))
          treatments fromTime now 12 ∧
    List.Sorted (fun a b : GlucoseReading => b.timestamp ≤ a.timestamp)
      (sortByTimestampDesc (keptReadings existingReadings fromTime)) ∧
    List.Chain' (fun a b : GlucoseReading =>
        b.timestamp = a.timestamp + st.intervalMinutes * 60000)
      (simulateReadings noiseWave st.intervalMinutes
        (reanchor patient (sortByTimestampDesc (keptReadings existingReadings fromTime)))
        treatments fromTime now 12) ∧
    (alignToFiveMinutes fromTime = fromTime →
      ∀ r ∈ keptReadings existingReadings fromTime,
      ∀ s, (simulateReadings noiseWave st.intervalMinutes
              (reanchor patient
                (sortByTimestampDesc (keptReadings existingReadings fromTime)))
              treatments fromTime now 12).head? = some s →
        r.timestamp < s.timestamp) := by
  refine ⟨updateSimulation_snd noiseWave st patient treatments existingReadings fromTime now,
    sorted_sortByTimestampDesc _,
    chain'_timestamps_simulateReadings noiseWave st.intervalMinutes _ treatments fromTime
      now 12, ?_⟩
  intro halign r hr s hs
  have hts := timestamp_head_simulateReadings hs
  rw [hts, halign]
  exact (mem_keptReadings.mp hr).2.1

/-- Witness for C2's amended theorem at a concrete input: with one kept
reading at epoch 0 and an aligned cut at 300000, the kept timestamp is
strictly below the first newly projected timestamp. -/
theorem updateSimulation_structure_witness :
    cexKeptA.timestamp <
      ((simulateReadings zeroNoise initialSimulatorState.intervalMinutes
          (reanchor basicPatient (sortByTimestampDesc (keptReadings [cexKeptA] 300000)))
          [] 300000 0 12).headI).timestamp :=
  (updateSimulation_structure zeroNoise initialSimulatorState basicPatient [] [cexKeptA]
      300000 0).2.2.2 (by decide) cexKeptA (by decide) _
    (head?_eq_headI (by with_unfolding_all decide))

/-- Counterexample to claim C2 as stated: with two kept readings (epochs 0
and 300000) and cut time 600000, the returned sequence begins with the kept
readings in descending order, so it is not monotonically increasing in
timestamp. -/
theorem updateSimulation_order_counterexample :
    ¬ List.Chain' (fun a b : GlucoseReading => a.timestamp < b.timestamp)
      ((updateSimulation zeroNoise initialSimulatorState basicPatient []
        [cexKeptA, cexKeptB] 600000 600000).2) := by
  intro hchain
  have hl : (updateSimulation zeroNoise initialSimulatorState basicPatient []
      [cexKeptA, cexKeptB] 600000 600000).2 =
      cexKeptB :: cexKeptA :: (simulate zeroNoise initialSimulatorState
        ⟨{ basicPatient with currentGlucose := cexKeptB.value }, [], 600000, 12, some 5⟩
        600000).2 := by
    with_unfolding_all rfl
  rw [hl] at hchain
  have h12 := (List.chain'_cons.mp hchain).1
  exact absurd h12 (by decide)

/-- Claim C5: `reproject` re-anchors the projection baseline.  When the kept
set is non-empty, the new projection is computed from the patient whose
`currentGlucose` is the value of the most recent kept reading (the head of
the descending sort, whose timestamp dominates every kept reading); when the
kept set is empty, the stored profile value is used unchanged.  The concrete
scenario: one kept reading of value 140 and an aligned cut 5 minutes later
makes the first new reading start from baseline 140 (while the stored profile
value is 120). -/
theorem updateSimulation_reanchors :
    (∀ (noiseWave : ℚ → ℚ) (st : SimulatorState) (patient : Patient)
        (treatments : List Treatment) (existingReadings : List GlucoseReading)
        (fromTime now : ℤ),
      (∀ latest,
        (sortByTimestampDesc (keptReadings existingReadings fromTime)).head? =
            some latest →
        (updateSimulation noiseWave st patient treatments existingReadings fromTime
            now).2 =
          sortByTimestampDesc (keptReadings existingReadings fromTime) ++
            simulateReadings noiseWave st.intervalMinutes
              { patient with currentGlucose := latest.value } treatments fromTime now 12 ∧
        ∀ r ∈ keptReadings existingReadings fromTime,
          r.timestamp ≤ latest.timestamp) ∧
      ((sortByTimestampDesc (keptReadings existingReadings fromTime)).head? = none →
        (updateSimulation noiseWave st patient treatments existingReadings fromTime
            now).2 =
          simulateReadings noiseWave st.intervalMinutes patient treatments fromTime
            now 12)) ∧
    ((updateSimulation zeroNoise initialSimulatorState basicPatient []
        [⟨"r1", 0, 140, 0, 0, false, "p"⟩] 300000 300000).2.map
        GlucoseReading.value).take 2 = [140, 140] ∧
    basicPatient.currentGlucose = 120 := by
  refine ⟨?_, ?_, rfl⟩
  · intro noiseWave st patient treatments existingReadings fromTime now
    constructor
    · intro latest hl
      constructor
      · rw [updateSimulation_snd, reanchor_of_head_some hl]
      · exact head_sortByTimestampDesc_max hl
    · intro hn
      rw [updateSimulation_snd, reanchor_of_head_none hn,
        List.head?_eq_none_iff.mp hn, List.nil_append]
  · with_unfolding_all decide

/-- Witness for C5's theorem at a concrete input: with one kept reading, the
reproject output equals the descending-sorted kept list followed by a
projection re-anchored at that reading's value. -/
theorem updateSimulation_reanchors_witness :
    (updateSimulation zeroNoise initialSimulatorState basicPatient [] [cexKeptA]
        300000 0).2 =
      sortByTimestampDesc (keptReadings [cexKeptA] 300000) ++
        simulateReadings zeroNoise initialSimulatorState.intervalMinutes
          { basicPatient with currentGlucose := cexKeptA.value } [] 300000 0 12 :=
  ((updateSimulation_reanchors.1 zeroNoise initialSimulatorState basicPatient []
      [cexKeptA] 300000 0).1 cexKeptA (by decide)).1

/-- Claim C9 (implicit frame effect): `simulate` overwrites the singleton's
`intervalMinutes` state with the explicit argument, so later
`updateSimulation`/`simulateForward` calls (which pass `this.intervalMinutes`)
use that interval instead of the default 5: after `simulate` with interval 10
the follow-up calls produce timestamps 600000 ms apart, while on a fresh
simulator they are 300000 ms apart — projection results depend on the order
of prior calls. -/
theorem simulate_mutates_interval_state :
    (∀ (noiseWave : ℚ → ℚ) (st : SimulatorState) (patient : Patient)
        (treatments : List Treatment) (startTime : ℤ) (durationHours : ℚ)
        (m : ℤ) (now : ℤ),
      (simulate noiseWave st ⟨patient, treatments, startTime, durationHours, some m⟩
          now).1 = ⟨m⟩) ∧
    ((updateSimulation zeroNoise
        (simulate zeroNoise initialSimulatorState
          ⟨basicPatient, [], 0, 1/12, some 10⟩ 0).1
        basicPatient [] [] 0 0).2.map GlucoseReading.timestamp).take 2 = [0, 600000] ∧
    ((updateSimulation zeroNoise initialSimulatorState
        basicPatient [] [] 0 0).2.map GlucoseReading.timestamp).take 2 = [0, 300000] ∧
    ((simulateForward zeroNoise
        (simulate zeroNoise initialSimulatorState
          ⟨basicPatient, [], 0, 1/12, some 10⟩ 0).1
        basicPatient [] 12 0).2.map GlucoseReading.timestamp).take 2 = [0, 600000] ∧
    ((simulateForward zeroNoise initialSimulatorState
        basicPatient [] 12 0).2.map GlucoseReading.timestamp).take 2 = [0, 300000] := by
  refine ⟨fun _ _ _ _ _ _ _ _ => rfl, ?_, ?_, ?_, ?_⟩ <;> with_unfolding_all decide

/-- Claim C8: the interpolation contract of the curve lookups over the
default curves: at or below 0 both return 0; at or beyond the last control
point they return the terminal value (0 for the insulin activity curve —
fully decayed; 1 for the carb absorption curve — fully absorbed); strictly
between two consecutive control points `(t0, f0)` and `(t1, f1)` they return
the linear interpolation `f0 + (f1 - f0)·(e - t0)/(t1 - t0)` of that
bracketing pair. -/
theorem curve_interpolation_contract (e : ℚ) :
    (e ≤ 0 → getInsulinActivity e = 0 ∧ getCarbAbsorption e = 0) ∧
    ((360 : ℚ) ≤ e → getInsulinActivity e = 0) ∧
    ((120 : ℚ) ≤ e → getCarbAbsorption e = 1) ∧
    (∀ k : ℕ, k + 1 < DEFAULT_INSULIN_CURVE.length →
      (DEFAULT_INSULIN_CURVE.getD k default).time < e →
      e < (DEFAULT_INSULIN_CURVE.getD (k + 1) default).time →
      getInsulinActivity e =
        (DEFAULT_INSULIN_CURVE.getD k default).activity +
          ((DEFAULT_INSULIN_CURVE.getD (k + 1) default).activity -
              (DEFAULT_INSULIN_CURVE.getD k default).activity) *
            ((e - (DEFAULT_INSULIN_CURVE.getD k default).time) /
              ((DEFAULT_INSULIN_CURVE.getD (k + 1) default).time -
                (DEFAULT_INSULIN_CURVE.getD k default).time))) ∧
    (∀ k : ℕ, k + 1 < DEFAULT_CARB_CURVE.length →
      (DEFAULT_CARB_CURVE.getD k default).time < e →
      e < (DEFAULT_CARB_CURVE.getD (k + 1) default).time →
      getCarbAbsorption e =
        (DEFAULT_CARB_CURVE.getD k default).absorption +
          ((DEFAULT_CARB_CURVE.getD (k + 1) default).absorption -
              (DEFAULT_CARB_CURVE.getD k default).absorption) *
            ((e - (DEFAULT_CARB_CURVE.getD k default).time) /
              ((DEFAULT_CARB_CURVE.getD (k + 1) default).time -
                (DEFAULT_CARB_CURVE.getD k default).time))) := by
  refine ⟨?_, ?_, ?_, ?_, ?_⟩
  · intro h
    constructor
    · simp only [getInsulinActivity, getInsulinActivityOn, if_pos h]
    · simp only [getCarbAbsorption, getCarbAbsorptionOn, if_pos h]
  · intro h
    have h0 : ¬ e ≤ 0 := by linarith
    simp only [getInsulinActivity, getInsulinActivityOn, if_neg h0, lastIns, if_pos h]
  · intro h
    have h0 : ¬ e ≤ 0 := by linarith
    simp only [getCarbAbsorption, getCarbAbsorptionOn, if_neg h0, lastCarb, if_pos h]
  · intro k hk h1 h2
    have hk9 : k < 9 := by simp [DEFAULT_INSULIN_CURVE] at hk; omega
    interval_cases k
    · simp only [DEFAULT_INSULIN_CURVE, List.getD] at h1 h2 ⊢
      try norm_num at h1 h2
      have hb : findBracketIns e DEFAULT_INSULIN_CURVE =
          some (⟨0, 0⟩, ⟨15, 1/10⟩) := by
        simp only [DEFAULT_INSULIN_CURVE]
        exact @findBracketIns_found e 0 (0) 15 (1/10) _ ⟨le_of_lt h1, le_of_lt h2⟩
      have h0 : ¬ e ≤ 0 := by linarith
      have hterm : ¬ (360 : ℚ) ≤ e := by linarith
      simp only [getInsulinActivity, getInsulinActivityOn, if_neg h0, hb, Option.getD_some,
        lastIns, if_neg hterm]
      try norm_num
    · simp only [DEFAULT_INSULIN_CURVE, List.getD] at h1 h2 ⊢
      try norm_num at h1 h2
      have hb : findBracketIns e DEFAULT_INSULIN_CURVE =
          some (⟨15, 1/10⟩, ⟨30, 3/10⟩) := by
        simp only [DEFAULT_INSULIN_CURVE]
        rw [@findBracketIns_skip e 0 (0) 15 (1/10) _ (by rintro ⟨-, hx⟩; linarith)]
        exact @findBracketIns_found e 15 (1/10) 30 (3/10) _ ⟨le_of_lt h1, le_of_lt h2⟩
      have h0 : ¬ e ≤ 0 := by linarith
      have hterm : ¬ (360 : ℚ) ≤ e := by linarith
      simp only [getInsulinActivity, getInsulinActivityOn, if_neg h0, hb, Option.getD_some,
        lastIns, if_neg hterm]
      try norm_num
    · simp only [DEFAULT_INSULIN_CURVE, List.getD] at h1 h2 ⊢
      try norm_num at h1 h2
      have hb : findBracketIns e DEFAULT_INSULIN_CURVE =
          some (⟨30, 3/10⟩, ⟨60, 7/10⟩) := by
        simp only [DEFAULT_INSULIN_CURVE]
        rw [@findBracketIns_skip e 0 (0) 15 (1/10) _ (by rintro ⟨-, hx⟩; linarith)]
        rw [@findBracketIns_skip e 15 (1/10) 30 (3/10) _ (by rintro ⟨-, hx⟩; linarith)]
        exact @findBracketIns_found e 30 (3/10) 60 (7/10) _ ⟨le_of_lt h1, le_of_lt h2⟩
      have h0 : ¬ e ≤ 0 := by linarith
      have hterm : ¬ (360 : ℚ) ≤ e := by linarith
      simp only [getInsulinActivity, getInsulinActivityOn, if_neg h0, hb, Option.getD_some,
        lastIns, if_neg hterm]
      try norm_num
    · simp only [DEFAULT_INSULIN_CURVE, List.getD] at h1 h2 ⊢
      try norm_num at h1 h2
      have hb : findBracketIns e DEFAULT_INSULIN_CURVE =
          some (⟨60, 7/10⟩, ⟨90, 1⟩) := by
        simp only [DEFAULT_INSULIN_CURVE]
        rw [@findBracketIns_skip e 0 (0) 15 (1/10) _ (by rintro ⟨-, hx⟩; linarith)]
        rw [@findBracketIns_skip e 15 (1/10) 30 (3/10) _ (by rintro ⟨-, hx⟩; linarith)]
        rw [@findBracketIns_skip e 30 (3/10) 60 (7/10) _ (by rintro ⟨-, hx⟩; linarith)]
        exact @findBracketIns_found e 60 (7/10) 90 (1) _ ⟨le_of_lt h1, le_of_lt h2⟩
      have h0 : ¬ e ≤ 0 := by linarith
      have hterm : ¬ (360 : ℚ) ≤ e := by linarith
      simp only [getInsulinActivity, getInsulinActivityOn, if_neg h0, hb, Option.getD_some,
        lastIns, if_neg hterm]
      try norm_num
    · simp only [DEFAULT_INSULIN_CURVE, List.getD] at h1 h2 ⊢
      try norm_num at h1 h2
      have hb : findBracketIns e DEFAULT_INSULIN_CURVE =
          some (⟨90, 1⟩, ⟨120, 4/5⟩) := by
        simp only [DEFAULT_INSULIN_CURVE]
        rw [@findBracketIns_skip e 0 (0) 15 (1/10) _ (by rintro ⟨-, hx⟩; linarith)]
        rw [@findBracketIns_skip e 15 (1/10) 30 (3/10) _ (by rintro ⟨-, hx⟩; linarith)]
        rw [@findBracketIns_skip e 30 (3/10) 60 (7/10) _ (by rintro ⟨-, hx⟩; linarith)]
        rw [@findBracketIns_skip e 60 (7/10) 90 (1) _ (by rintro ⟨-, hx⟩; linarith)]
        exact @findBracketIns_found e 90 (1) 120 (4/5) _ ⟨le_of_lt h1, le_of_lt h2⟩
      have h0 : ¬ e ≤ 0 := by linarith
      have hterm : ¬ (360 : ℚ) ≤ e := by linarith
      simp only [getInsulinActivity, getInsulinActivityOn, if_neg h0, hb, Option.getD_some,
        lastIns, if_neg hterm]
      try norm_num
    · simp only [DEFAULT_INSULIN_CURVE, List.getD] at h1 h2 ⊢
      try norm_num at h1 h2
      have hb : findBracketIns e DEFAULT_INSULIN_CURVE =
          some (⟨120, 4/5⟩, ⟨180, 1/2⟩) := by
        simp only [DEFAULT_INSULIN_CURVE]
        rw [@findBracketIns_skip e 0 (0) 15 (1/10) _ (by rintro ⟨-, hx⟩; linarith)]
        rw [@findBracketIns_skip e 15 (1/10) 30 (3/10) _ (by rintro ⟨-, hx⟩; linarith)]
        rw [@findBracketIns_skip e 30 (3/10) 60 (7/10) _ (by rintro ⟨-, hx⟩; linarith)]
        rw [@findBracketIns_skip e 60 (7/10) 90 (1) _ (by rintro ⟨-, hx⟩; linarith)]
        rw [@findBracketIns_skip e 90 (1) 120 (4/5) _ (by rintro ⟨-, hx⟩; linarith)]
        exact @findBracketIns_found e 120 (4/5) 180 (1/2) _ ⟨le_of_lt h1, le_of_lt h2⟩
      have h0 : ¬ e ≤ 0 := by linarith
      have hterm : ¬ (360 : ℚ) ≤ e := by linarith
      simp only [getInsulinActivity, getInsulinActivityOn, if_neg h0, hb, Option.getD_some,
        lastIns, if_neg hterm]
      try norm_num
    · simp only [DEFAULT_INSULIN_CURVE, List.getD] at h1 h2 ⊢
      try norm_num at h1 h2
      have hb : findBracketIns e DEFAULT_INSULIN_CURVE =
          some (⟨180, 1/2⟩, ⟨240, 1/5⟩) := by
        simp only [DEFAULT_INSULIN_CURVE]
        rw [@findBracketIns_skip e 0 (0) 15 (1/10) _ (by rintro ⟨-, hx⟩; linarith)]
        rw [@findBracketIns_skip e 15 (1/10) 30 (3/10) _ (by rintro ⟨-, hx⟩; linarith)]
        rw [@findBracketIns_skip e 30 (3/10) 60 (7/10) _ (by rintro ⟨-, hx⟩; linarith)]
        rw [@findBracketIns_skip e 60 (7/10) 90 (1) _ (by rintro ⟨-, hx⟩; linarith)]
        rw [@findBracketIns_skip e 90 (1) 120 (4/5) _ (by rintro ⟨-, hx⟩; linarith)]
        rw [@findBracketIns_skip e 120 (4/5) 180 (1/2) _ (by rintro ⟨-, hx⟩; linarith)]
        exact @findBracketIns_found e 180 (1/2) 240 (1/5) _ ⟨le_of_lt h1, le_of_lt h2⟩
      have h0 : ¬ e ≤ 0 := by linarith
      have hterm : ¬ (360 : ℚ) ≤ e := by linarith
      simp only [getInsulinActivity, getInsulinActivityOn, if_neg h0, hb, Option.getD_some,
        lastIns, if_neg hterm]
      try norm_num
    · simp only [DEFAULT_INSULIN_CURVE, List.getD] at h1 h2 ⊢
      try norm_num at h1 h2
      have hb : findBracketIns e DEFAULT_INSULIN_CURVE =
          some (⟨240, 1/5⟩, ⟨300, 1/20⟩) := by
        simp only [DEFAULT_INSULIN_CURVE]
        rw [@findBracketIns_skip e 0 (0) 15 (1/10) _ (by rintro ⟨-, hx⟩; linarith)]
        rw [@findBracketIns_skip e 15 (1/10) 30 (3/10) _ (by rintro ⟨-, hx⟩; linarith)]
        rw [@findBracketIns_skip e 30 (3/10) 60 (7/10) _ (by rintro ⟨-, hx⟩; linarith)]
        rw [@findBracketIns_skip e 60 (7/10) 90 (1) _ (by rintro ⟨-, hx⟩; linarith)]
        rw [@findBracketIns_skip e 90 (1) 120 (4/5) _ (by rintro ⟨-, hx⟩; linarith)]
        rw [@findBracketIns_skip e 120 (4/5) 180 (1/2) _ (by rintro ⟨-, hx⟩; linarith)]
        rw [@findBracketIns_skip e 180 (1/2) 240 (1/5) _ (by rintro ⟨-, hx⟩; linarith)]
        exact @findBracketIns_found e 240 (1/5) 300 (1/20) _ ⟨le_of_lt h1, le_of_lt h2⟩
      have h0 : ¬ e ≤ 0 := by linarith
      have hterm : ¬ (360 : ℚ) ≤ e := by linarith
      simp only [getInsulinActivity, getInsulinActivityOn, if_neg h0, hb, Option.getD_some,
        lastIns, if_neg hterm]
      try norm_num
    · simp only [DEFAULT_INSULIN_CURVE, List.getD] at h1 h2 ⊢
      try norm_num at h1 h2
      have hb : findBracketIns e DEFAULT_INSULIN_CURVE =
          some (⟨300, 1/20⟩, ⟨360, 0⟩) := by
        simp only [DEFAULT_INSULIN_CURVE]
        rw [@findBracketIns_skip e 0 (0) 15 (1/10) _ (by rintro ⟨-, hx⟩; linarith)]
        rw [@findBracketIns_skip e 15 (1/10) 30 (3/10) _ (by rintro ⟨-, hx⟩; linarith)]
        rw [@findBracketIns_skip e 30 (3/10) 60 (7/10) _ (by rintro ⟨-, hx⟩; linarith)]
        rw [@findBracketIns_skip e 60 (7/10) 90 (1) _ (by rintro ⟨-, hx⟩; linarith)]
        rw [@findBracketIns_skip e 90 (1) 120 (4/5) _ (by rintro ⟨-, hx⟩; linarith)]
        rw [@findBracketIns_skip e 120 (4/5) 180 (1/2) _ (by rintro ⟨-, hx⟩; linarith)]
        rw [@findBracketIns_skip e 180 (1/2) 240 (1/5) _ (by rintro ⟨-, hx⟩; linarith)]
        rw [@findBracketIns_skip e 240 (1/5) 300 (1/20) _ (by rintro ⟨-, hx⟩; linarith)]
        exact @findBracketIns_found e 300 (1/20) 360 (0) _ ⟨le_of_lt h1, le_of_lt h2⟩
      have h0 : ¬ e ≤ 0 := by linarith
      have hterm : ¬ (360 : ℚ) ≤ e := by linarith
      simp only [getInsulinActivity, getInsulinActivityOn, if_neg h0, hb, Option.getD_some,
        lastIns, if_neg hterm]
      try norm_num
  · intro k hk h1 h2
    have hk5 : k < 5 := by simp [DEFAULT_CARB_CURVE] at hk; omega
    interval_cases k
    · simp only [DEFAULT_CARB_CURVE, List.getD] at h1 h2 ⊢
      try norm_num at h1 h2
      have hb : findBracketCarb e DEFAULT_CARB_CURVE =
          some (⟨0, 0⟩, ⟨15, 1/5⟩) := by
        simp only [DEFAULT_CARB_CURVE]
        exact @findBracketCarb_found e 0 (0) 15 (1/5) _ ⟨le_of_lt h1, le_of_lt h2⟩
      have h0 : ¬ e ≤ 0 := by linarith
      have hterm : ¬ (120 : ℚ) ≤ e := by linarith
      simp only [getCarbAbsorption, getCarbAbsorptionOn, if_neg h0, hb, Option.getD_some,
        lastCarb, if_neg hterm]
      try norm_num
    · simp only [DEFAULT_CARB_CURVE, List.getD] at h1 h2 ⊢
      try norm_num at h1 h2
      have hb : findBracketCarb e DEFAULT_CARB_CURVE =
          some (⟨15, 1/5⟩, ⟨30, 1/2⟩) := by
        simp only [DEFAULT_CARB_CURVE]
        rw [@findBracketCarb_skip e 0 (0) 15 (1/5) _ (by rintro ⟨-, hx⟩; linarith)]
        exact @findBracketCarb_found e 15 (1/5) 30 (1/2) _ ⟨le_of_lt h1, le_of_lt h2⟩
      have h0 : ¬ e ≤ 0 := by linarith
      have hterm : ¬ (120 : ℚ) ≤ e := by linarith
      simp only [getCarbAbsorption, getCarbAbsorptionOn, if_neg h0, hb, Option.getD_some,
        lastCarb, if_neg hterm]
      try norm_num
    · simp only [DEFAULT_CARB_CURVE, List.getD] at h1 h2 ⊢
      try norm_num at h1 h2
      have hb : findBracketCarb e DEFAULT_CARB_CURVE =
          some (⟨30, 1/2⟩, ⟨60, 4/5⟩) := by
        simp only [DEFAULT_CARB_CURVE]
        rw [@findBracketCarb_skip e 0 (0) 15 (1/5) _ (by rintro ⟨-, hx⟩; linarith)]
        rw [@findBracketCarb_skip e 15 (1/5) 30 (1/2) _ (by rintro ⟨-, hx⟩; linarith)]
        exact @findBracketCarb_found e 30 (1/2) 60 (4/5) _ ⟨le_of_lt h1, le_of_lt h2⟩
      have h0 : ¬ e ≤ 0 := by linarith
      have hterm : ¬ (120 : ℚ) ≤ e := by linarith
      simp only [getCarbAbsorption, getCarbAbsorptionOn, if_neg h0, hb, Option.getD_some,
        lastCarb, if_neg hterm]
      try norm_num
    · simp only [DEFAULT_CARB_CURVE, List.getD] at h1 h2 ⊢
      try norm_num at h1 h2
      have hb : findBracketCarb e DEFAULT_CARB_CURVE =
          some (⟨60, 4/5⟩, ⟨90, 19/20⟩) := by
        simp only [DEFAULT_CARB_CURVE]
        rw [@findBracketCarb_skip e 0 (0) 15 (1/5) _ (by rintro ⟨-, hx⟩; linarith)]
        rw [@findBracketCarb_skip e 15 (1/5) 30 (1/2) _ (by rintro ⟨-, hx⟩; linarith)]
        rw [@findBracketCarb_skip e 30 (1/2) 60 (4/5) _ (by rintro ⟨-, hx⟩; linarith)]
        exact @findBracketCarb_found e 60 (4/5) 90 (19/20) _ ⟨le_of_lt h1, le_of_lt h2⟩
      have h0 : ¬ e ≤ 0 := by linarith
      have hterm : ¬ (120 : ℚ) ≤ e := by linarith
      simp only [getCarbAbsorption, getCarbAbsorptionOn, if_neg h0, hb, Option.getD_some,
        lastCarb, if_neg hterm]
      try norm_num
    · simp only [DEFAULT_CARB_CURVE, List.getD] at h1 h2 ⊢
      try norm_num at h1 h2
      have hb : findBracketCarb e DEFAULT_CARB_CURVE =
          some (⟨90, 19/20⟩, ⟨120, 1⟩) := by
        simp only [DEFAULT_CARB_CURVE]
        rw [@findBracketCarb_skip e 0 (0) 15 (1/5) _ (by rintro ⟨-, hx⟩; linarith)]
        rw [@findBracketCarb_skip e 15 (1/5) 30 (1/2) _ (by rintro ⟨-, hx⟩; linarith)]
        rw [@findBracketCarb_skip e 30 (1/2) 60 (4/5) _ (by rintro ⟨-, hx⟩; linarith)]
        rw [@findBracketCarb_skip e 60 (4/5) 90 (19/20) _ (by rintro ⟨-, hx⟩; linarith)]
        exact @findBracketCarb_found e 90 (19/20) 120 (1) _ ⟨le_of_lt h1, le_of_lt h2⟩
      have h0 : ¬ e ≤ 0 := by linarith
      have hterm : ¬ (120 : ℚ) ≤ e := by linarith
      simp only [getCarbAbsorption, getCarbAbsorptionOn, if_neg h0, hb, Option.getD_some,
        lastCarb, if_neg hterm]
      try norm_num

/-- Witness for C8 at concrete inputs: the first segment interpolation at
`e = 7` for both curves, both terminal values, and the nonpositive case. -/
theorem curve_interpolation_contract_witness :
    getInsulinActivity 7 = 7/150 ∧ getCarbAbsorption 7 = 7/75 ∧
    getInsulinActivity 500 = 0 ∧ getCarbAbsorption 500 = 1 ∧
    getInsulinActivity (-3) = 0 := by
  refine ⟨?_, ?_, ?_, ?_, ?_⟩
  · have h := (curve_interpolation_contract 7).2.2.2.1 0
      (by norm_num [DEFAULT_INSULIN_CURVE])
      (by norm_num [DEFAULT_INSULIN_CURVE, List.getD])
      (by norm_num [DEFAULT_INSULIN_CURVE, List.getD])
    norm_num [DEFAULT_INSULIN_CURVE, List.getD] at h
    linarith
  · have h := (curve_interpolation_contract 7).2.2.2.2 0
      (by norm_num [DEFAULT_CARB_CURVE])
      (by norm_num [DEFAULT_CARB_CURVE, List.getD])
      (by norm_num [DEFAULT_CARB_CURVE, List.getD])
    norm_num [DEFAULT_CARB_CURVE, List.getD] at h
    linarith
  · exact (curve_interpolation_contract 500).2.1 (by norm_num)
  · exact (curve_interpolation_contract 500).2.2.1 (by norm_num)
  · exact ((curve_interpolation_contract (-3)).1 (by norm_num)).1

/-- Claim C4, amended: with the default 5-minute interval, every reading's
timestamp has minute-of-hour divisible by 5 (alignment always lands the start
on a 5-minute minute boundary, and steps preserve it); but the sub-minute
part (seconds and milliseconds) is zero for all readings only when the
aligned start has zero sub-minute part — `alignToFiveMinutes` zeroes
seconds/milliseconds only in its `remainder ≠ 0` branch, so a start time
whose minute is already a multiple of 5 keeps its seconds forever (see the
counterexample). -/
theorem simulate_grid_alignment
    (noiseWave : ℚ → ℚ) (st : SimulatorState) (patient : Patient)
    (treatments : List Treatment) (startTime : ℤ) (durationHours : ℚ) (now : ℤ) :
    (∀ r ∈ (simulate noiseWave st
        ⟨patient, treatments, startTime, durationHours, some 5⟩ now).2,
      (r.timestamp / 60000 % 60) % 5 = 0) ∧
    (alignToFiveMinutes startTime % 60000 = 0 →
      ∀ r ∈ (simulate noiseWave st
          ⟨patient, treatments, startTime, durationHours, some 5⟩ now).2,
        r.timestamp % 60000 = 0) := by
  constructor
  · intro r hr
    obtain ⟨i, hi, rfl⟩ := mem_simulateReadings.mp hr
    rw [mkReading_timestamp]
    exact align_minute_multiple startTime i
  · intro h r hr
    obtain ⟨i, hi, rfl⟩ := mem_simulateReadings.mp hr
    rw [mkReading_timestamp]
    exact align_subminute startTime i h

/-- Witness for C4's amended theorem at a concrete input: the anchor reading
of a projection starting at epoch 0 is on the canonical grid. -/
theorem simulate_grid_alignment_witness :
    (((simulate zeroNoise initialSimulatorState
        ⟨basicPatient, [], 0, 1/12, some 5⟩ 0).2).headI.timestamp / 60000 % 60) % 5 = 0 ∧
    ((simulate zeroNoise initialSimulatorState
        ⟨basicPatient, [], 0, 1/12, some 5⟩ 0).2).headI.timestamp % 60000 = 0 :=
  ⟨(simulate_grid_alignment zeroNoise initialSimulatorState basicPatient [] 0 (1/12) 0).1 _
      (headI_mem (by with_unfolding_all decide)),
   (simulate_grid_alignment zeroNoise initialSimulatorState basicPatient [] 0 (1/12) 0).2
      (by decide) _ (headI_mem (by with_unfolding_all decide))⟩

/-- Counterexample to claim C4 as stated: a start time at 5 minutes 30
seconds past the hour is already on a 5-minute minute boundary, so
`alignToFiveMinutes` leaves it unchanged and every emitted reading keeps a
30-second component — the claimed `seconds == 0` fails. -/
theorem simulate_grid_seconds_counterexample :
    ∃ r ∈ (simulate zeroNoise initialSimulatorState
        ⟨basicPatient, [], 330000, 1/12, none⟩ 0).2,
      r.timestamp / 1000 % 60 ≠ 0 := by
  refine ⟨((simulate zeroNoise initialSimulatorState
      ⟨basicPatient, [], 330000, 1/12, none⟩ 0).2).headI,
    headI_mem (by with_unfolding_all decide), ?_⟩
  with_unfolding_all decide
